import Mathlib

/-!
Shallow embedding of the scyllaft-orm query builder and table metadata
(src/scyllaft_orm/query.py, table.py, metadata.py), together with theorems
checking the natural-language specification claims against it.

Python methods that can raise are embedded as functions into `Except PyErr`;
fluent clause-adding methods are state transformers on an explicit record of
the object state.  `column.py` is imported by query.py but is not part of the
source tree, so the Column / Expression data model is modelled from the spec
(each such definition says so in its doc comment); everything else is a direct
translation of the Python source.
-/

namespace ScyllaOrm

/-- Python exceptions raised by the embedded code.  The spec error taxonomy
maps `assert cond, msg` failures and `raise ValueError` in the builders to its
ValidationError, the `raise ValueError` of `Table.get_view` to NotFoundError;
`attributeError a` is Python raising AttributeError when reading an attribute
`a` that was never assigned. -/
inductive PyErr where
  | assertionError (msg : String)
  | valueError (msg : String)
  | attributeError (attr : String)
  | typeError (msg : String)
  | notImplementedError
  deriving DecidableEq, Repr

/-- Scalar values bound into queries (the `Any` positions of query.py). -/
inductive Value where
  | vInt (i : Int)
  | vStr (s : String)
  | vBool (b : Bool)
  deriving DecidableEq, Repr

/-- Python `str(v)` as interpolated by an f-string, used by `Update.build_query`
to inline SET values (query.py:168). -/
def Value.render : Value → String
  | .vInt i => i.repr
  | .vStr s => s
  | .vBool b => if b then "True" else "False"

/-- Modelled from the spec: the `Column` class of the absent `column.py`.
A column carries its name and a back-reference to the owning table name and
keyspace (spec section 3), plus an optional projection alias.  query.py:48
annotates `columns[0]._table` as `str`, confirming the back-reference is the
table-name string. -/
structure Column where
  _name : String
  _table : String
  _keyspace : String
  rename : Option String
  deriving DecidableEq, Repr

/-- Modelled from the spec: the `AggregateExpr` class of the absent
`column.py`: a column wrapped in an aggregate operator with an optional output
alias (spec section 4.1). -/
structure AggregateExpr where
  _name : String
  _table : String
  _keyspace : String
  operator : String
  rename : Option String
  deriving DecidableEq, Repr

/-- Modelled from the spec: the `ColumnExpr` predicate class of the absent
`column.py`: produced by a comparison method on a Column, it captures the
column name, the comparison operator, the bound value and the column's
table/keyspace back-references (spec sections 3 and 4.1). -/
structure ColumnExpr where
  _name : String
  _table : String
  _keyspace : String
  operator : String
  value : Value
  deriving DecidableEq, Repr

/-- Argument type of the column-list branch of `Select.__init__`
(`Column | AggregateExpr`). -/
inductive ColumnRef where
  | col (c : Column)
  | agg (a : AggregateExpr)
  deriving DecidableEq, Repr

/-- Accessor for `._table` on a `Column | AggregateExpr` argument. -/
def ColumnRef.tableOf : ColumnRef → String
  | .col c => c._table
  | .agg a => a._table

/-- Embeds a declared table (table.py `Table` and the class-level declaration
surface read by query.py): `_keyspace` holds the `__keyspace__` class
attribute, `_table_name` the `__tablename__` attribute (table.py spells the
same datum `_table_name`), `columns` the declared columns and
`_materialized_views` the view-key to column-list mapping, as an ordered
association list. -/
structure Table where
  _keyspace : String
  _table_name : String
  columns : List Column
  _materialized_views : List (String × List String)
  deriving DecidableEq, Repr

/-- Embeds `Table.get_view` (table.py:36-44): an absent key raises ValueError
with a message naming the table and the key; otherwise a deep copy of the
descriptor is returned with only `_table_name` rewritten, the original left
untouched (value semantics in this embedding). -/
def Table.get_view (t : Table) (param : String) : Except PyErr Table :=
  if ((t._materialized_views.map Prod.fst).contains param) = false then
    .error (.valueError
      ("Table " ++ t._table_name ++ " does not have a view associated with " ++ param ++ "."))
  else
    .ok { t with _table_name := t._table_name ++ "_" ++ param }

/-- Embeds Python `sep.join(parts)`. -/
def joinSep (sep : String) : List String → String
  | [] => ""
  | [x] => x
  | x :: y :: ys => x ++ sep ++ joinSep sep (y :: ys)

/-- Embeds the WHERE-loop body `predicates.append(f"{predicate._name}
{predicate.operator} ?")` shared verbatim by the three `build_query` methods
(query.py:123, 176, 215). -/
def predicateSql (p : ColumnExpr) : String := p._name ++ " " ++ p.operator ++ " ?"

/-- Embeds the Python comparison `predicate._table == self._table` as it
occurs in `Update.where` (query.py:155) and `Delete.where` (query.py:201):
there `self._table` is the Table class object itself (assigned in their
constructors and read as `self._table.__tablename__` in their `build_query`),
while `predicate._table` is the table-name string; `==` between a `str` and a
class falls back to identity and is always `False` in Python. -/
def eqStrTableClass (_s : String) (_t : Table) : Bool := false

/-- State of a `Select` object (query.py:35-73).  The column-list branch of
`__init__` would also set `_columns`, but that branch always raises before
finishing (see `Select.init_columns`), so the field is omitted: it is never
read by any method. -/
structure Select where
  _select : String
  _table : String
  _keyspace : String
  _where : List ColumnExpr
  _allow_filtering : Bool
  _limit : Int
  _distinct : Bool
  _group_by : Option String
  deriving DecidableEq, Repr

/-- Embeds the `Type[Table]` branch of `Select.__init__` (query.py:42-46 and
69-73): projection `*`, table and keyspace copied from the class attributes,
all clause state empty. -/
def Select.init_table (t : Table) : Select :=
  { _select := "*"
    _table := t._table_name
    _keyspace := t._keyspace
    _where := []
    _allow_filtering := false
    _limit := 0
    _distinct := false
    _group_by := none }

/-- Embeds the column-list branch of `Select.__init__` (query.py:47-67).
After `self._table = columns[0]._table`, the validity assert evaluates its
list comprehension; for the element `columns[0]` the first two conjuncts hold
(`isinstance` and `col._table == self._table`), so Python evaluates
`col._keyspace == self._keyspace`.  No statement on this path ever assigned
`self._keyspace` and the class declares no such attribute, so the attribute
lookup raises AttributeError before the projection is built. -/
def Select.init_columns (columns : List ColumnRef) : Except PyErr Select :=
  match columns with
  | [] => .error (.assertionError "Select expression cannot be empty!")
  | _c :: _ => .error (.attributeError "_keyspace")

/-- Embeds `Select.where` (query.py:82-93): rejects an empty predicate list,
rejects any predicate whose table or keyspace differs from the query's fixed
target, otherwise appends the predicates in order. -/
def Select.where' (q : Select) (predicates : List ColumnExpr) : Except PyErr Select :=
  if predicates.isEmpty then
    .error (.assertionError "where condition cannot be empty!")
  else if predicates.all (fun p => p._table == q._table && p._keyspace == q._keyspace) then
    .ok { q with _where := q._where ++ predicates }
  else
    .error (.assertionError "Columns do not originate from the same table")

/-- Embeds `Select.group_by` (query.py:95-105): validates non-emptiness and
table/keyspace agreement, then stores the comma-joined column names. -/
def Select.group_by (q : Select) (columns : List Column) : Except PyErr Select :=
  if columns.isEmpty then
    .error (.assertionError "group_by condition cannot be empty!")
  else if columns.all (fun c => c._table == q._table && c._keyspace == q._keyspace) then
    .ok { q with _group_by := some (joinSep ", " (columns.map (fun c => c._name))) }
  else
    .error (.assertionError "Columns do not originate from the same table")

/-- Embeds `Select.limit` (query.py:107-111): `assert _limit > 0`. -/
def Select.limit (q : Select) (l : Int) : Except PyErr Select :=
  if l > 0 then .ok { q with _limit := l }
  else .error (.assertionError "Limit cannot be null nor negative")

/-- Embeds `Select.distinct` (query.py:113-115): sets the `_distinct` flag. -/
def Select.distinct (q : Select) : Select := { q with _distinct := true }

/-- Embeds `Select.allow_filtering` (query.py:75-80): sets the flag (the
logged performance warning has no effect on the query state). -/
def Select.allow_filtering (q : Select) : Select := { q with _allow_filtering := true }

/-- Embeds `Select.build_query` (query.py:117-132).  The statement template
interpolates `'DISTINCT' if self.distinct else ''`; `self.distinct` there is
the bound method `distinct`, not the `_distinct` flag, and a bound method is
always truthy in Python, so the conditional constantly yields `DISTINCT`.
Python truthiness drives the optional clauses: a non-empty `_where` list, a
`_group_by` that is neither None nor the empty string, a non-zero `_limit`. -/
def Select.build_query (q : Select) : String × List Value :=
  let distinctKw := "DISTINCT"
  let query0 := "SELECT " ++ distinctKw ++ " " ++ q._select ++ " FROM "
      ++ q._keyspace ++ "." ++ q._table
  let parameters : List Value :=
    if q._where.isEmpty then [] else q._where.map ColumnExpr.value
  let query1 :=
    if q._where.isEmpty then query0
    else query0 ++ " WHERE " ++ joinSep " AND " (q._where.map predicateSql)
  let query2 :=
    match q._group_by with
    | none => query1
    | some g => if g.isEmpty then query1 else query1 ++ " GROUP BY " ++ g
  let query3 := if q._limit == 0 then query2 else query2 ++ " LIMIT " ++ q._limit.repr
  let query4 := if q._allow_filtering then query3 ++ " ALLOW FILTERING" else query3
  (query4, parameters)

/-- State-passing reading of `Select.build_query`: the method body only binds
the locals `query`, `parameters` and `predicates` and never assigns any
attribute of `self`, so its transformer translation returns the state
unchanged alongside the result. -/
def Select.build_queryM (q : Select) : (String × List Value) × Select := (q.build_query, q)

/-- State of an `Update` object (query.py:135-143).  `_table` holds the Table
class object (not its name); `_set_values` is the insertion-ordered dict
`Dict[Column, Any]` as an association list. -/
structure Update where
  _table : Table
  _keyspace : String
  _where : List ColumnExpr
  _set_values : List (Column × Value)
  deriving DecidableEq, Repr

/-- Embeds `Update.__init__` (query.py:138-143). -/
def Update.init (table : Table) : Update :=
  { _table := table, _keyspace := table._keyspace, _where := [], _set_values := [] }

/-- Python dict assignment `d[k] = v`: overwrites the value of an existing key
in place (keeping its original position) or appends a new binding. -/
def assocSet (xs : List (Column × Value)) (c : Column) (v : Value) : List (Column × Value) :=
  match xs with
  | [] => [(c, v)]
  | (k, w) :: rest => if k = c then (k, v) :: rest else (k, w) :: assocSet rest c v

/-- Embeds `Update.set` (query.py:145-148): `self._set_values[column] = value`
and nothing else — no table, keyspace or type validation of any kind. -/
def Update.set (q : Update) (column : Column) (value : Value) : Except PyErr Update :=
  .ok { q with _set_values := assocSet q._set_values column value }

/-- Embeds `Update.where` (query.py:150-161).  The table conjunct compares the
predicate's table-name string against the stored Table class (see
`eqStrTableClass`), which is False for every predicate, so every non-empty
call fails the assert. -/
def Update.where' (q : Update) (predicates : List ColumnExpr) : Except PyErr Update :=
  if predicates.isEmpty then
    .error (.assertionError "where condition cannot be empty!")
  else if predicates.all (fun p => eqStrTableClass p._table q._table && p._keyspace == q._keyspace) then
    .ok { q with _where := q._where ++ predicates }
  else
    .error (.assertionError "Columns do not originate from the same table")

/-- Embeds `Update.build_query` (query.py:163-179): raises ValueError when no
assignment was ever set; otherwise renders the SET pairs inlined as literals
(`f"{k._name} = {v}"` — not parameterized) and parameterizes only the WHERE
predicates. -/
def Update.build_query (q : Update) : Except PyErr (String × List Value) :=
  if q._set_values.isEmpty then .error (.valueError "No SET in update query!")
  else
    let set_values := joinSep ", "
      (q._set_values.map (fun kv => kv.1._name ++ " = " ++ kv.2.render))
    let query0 := "UPDATE " ++ q._keyspace ++ "." ++ q._table._table_name
        ++ " SET " ++ set_values
    let parameters : List Value :=
      if q._where.isEmpty then [] else q._where.map ColumnExpr.value
    let query1 :=
      if q._where.isEmpty then query0
      else query0 ++ " WHERE " ++ joinSep " AND " (q._where.map predicateSql)
    .ok (query1, parameters)

/-- State-passing reading of `Update.build_query`: the body binds only locals
and assigns no attribute of `self`. -/
def Update.build_queryM (q : Update) : Except PyErr (String × List Value) × Update :=
  (q.build_query, q)

/-- Embeds `Query.execute` (query.py:20-23) at type Update: `build_query` runs
first; only on success is the driver called with the statement and parameter
list.  The driver is abstracted as a function computing the call result, so a
`build_query` error propagates with no driver call made. -/
def Update.execute {α : Type} (q : Update) (driver : String → List Value → α) : Except PyErr α :=
  match q.build_query with
  | .error e => .error e
  | .ok (query, parameters) => .ok (driver query parameters)

/-- State of a `Delete` object (query.py:182-190); `_table` holds the Table
class object. -/
structure Delete where
  _table : Table
  _keyspace : String
  _where : List ColumnExpr
  _if_exists : Bool
  deriving DecidableEq, Repr

/-- Embeds `Delete.__init__` (query.py:185-190). -/
def Delete.init (table : Table) : Delete :=
  { _table := table, _keyspace := table._keyspace, _where := [], _if_exists := false }

/-- Embeds `Delete.if_exists` (query.py:192-194). -/
def Delete.if_exists (q : Delete) : Delete := { q with _if_exists := true }

/-- Embeds `Delete.where` (query.py:196-207): the same table conjunct as
`Update.where` compares the predicate's table-name string against the stored
Table class and is always False, so every non-empty call fails the assert. -/
def Delete.where' (q : Delete) (predicates : List ColumnExpr) : Except PyErr Delete :=
  if predicates.isEmpty then
    .error (.assertionError "where condition cannot be empty!")
  else if predicates.all (fun p => eqStrTableClass p._table q._table && p._keyspace == q._keyspace) then
    .ok { q with _where := q._where ++ predicates }
  else
    .error (.assertionError "Columns do not originate from the same table")

/-- Embeds `Delete.build_query` (query.py:209-220). -/
def Delete.build_query (q : Delete) : String × List Value :=
  let query0 := "DELETE FROM " ++ q._keyspace ++ "." ++ q._table._table_name
  let parameters : List Value :=
    if q._where.isEmpty then [] else q._where.map ColumnExpr.value
  let query1 :=
    if q._where.isEmpty then query0
    else query0 ++ " WHERE " ++ joinSep " AND " (q._where.map predicateSql)
  let query2 := if q._if_exists then query1 ++ " IF EXISTS" else query1
  (query2, parameters)

/-- State-passing reading of `Delete.build_query`: the body binds only locals
and assigns no attribute of `self`. -/
def Delete.build_queryM (q : Delete) : (String × List Value) × Delete := (q.build_query, q)

/-- A whole-row object accumulated by `Insert.values` (a Table instance). -/
structure Row where
  fields : List (String × Value)
  deriving DecidableEq, Repr

/-- State an `Insert` object would have (query.py:229-233). -/
structure Insert where
  _table : Table
  _keyspace : String
  _values : List Row
  deriving DecidableEq, Repr

/-- Embeds instantiating `Insert(table)` (query.py:223-238): `Insert` never
overrides the abstract `Query.build_query`, so the class still has an abstract
method and ABCMeta refuses instantiation — `Insert(table)` raises TypeError
before `__init__` runs. -/
def Insert.init (_table : Table) : Except PyErr Insert :=
  .error (.typeError "Insert is abstract: build_query is not implemented")

/-- Embeds `Insert.values` (query.py:235-238): appends the rows in order. -/
def Insert.values (q : Insert) (vs : List Row) : Except PyErr Insert :=
  .ok { q with _values := q._values ++ vs }

/-- Embeds `build_query` on an `Insert` object: `Insert` defines none of its
own, so the inherited abstract `Query.build_query` body runs and raises
NotImplementedError (query.py:25-28). -/
def Insert.build_query (_q : Insert) : Except PyErr (String × List Value) :=
  .error .notImplementedError

/-- State of the `ApplicationEnvironment` singleton (metadata.py:27-45). -/
structure ApplicationEnvironment where
  modified : Bool
  env : String
  deriving DecidableEq, Repr

/-- Initial singleton state (metadata.py:29-30): never modified, default
environment `dev`. -/
def ApplicationEnvironment.init : ApplicationEnvironment := { modified := false, env := "dev" }

/-- Embeds `ApplicationEnvironment.set_environment` (metadata.py:32-35):
unconditionally marks the state modified and overwrites `env`. -/
def ApplicationEnvironment.set_environment
    (s : ApplicationEnvironment) (e : String) : ApplicationEnvironment :=
  { s with modified := true, env := e }

/-- Embeds `ApplicationEnvironment.get_environment` (metadata.py:37-45):
returns the current `env` together with the list of warnings emitted by the
call (one warning, naming the default, when the environment was never set;
none otherwise).  The state is not changed by a read. -/
def ApplicationEnvironment.get_environment (s : ApplicationEnvironment) : String × List String :=
  (s.env,
   if s.modified then []
   else ["Using the default environment : " ++ s.env
      ++ ", as the application env has not been set"])

/-- Folds a sequence of `set_environment` calls over the initial singleton
state, modelling the process-wide history of set attempts. -/
def ApplicationEnvironment.apply_sets (ops : List String) : ApplicationEnvironment :=
  ops.foldl ApplicationEnvironment.set_environment ApplicationEnvironment.init

/-- Number of occurrences of the placeholder character in a string. -/
def countQ (s : String) : Nat := s.toList.count '?'

/-- Concrete column `Users.id` of the example table of spec section 8. -/
def users_id : Column :=
  { _name := "id", _table := "users", _keyspace := "app", rename := none }

/-- Concrete column `Users.name` of the example table. -/
def users_name : Column :=
  { _name := "name", _table := "users", _keyspace := "app", rename := none }

/-- Concrete example table `Users` (keyspace `app`, table `users`) with one
materialized view key `by_email`. -/
def Users : Table :=
  { _keyspace := "app"
    _table_name := "users"
    columns := [users_id, users_name]
    _materialized_views := [("by_email", ["email"])] }

/-- Modelled from the spec: the predicate `Users.id.eq(42)` — the comparison
method of the absent `column.py` returns the (column, operator, value) triple
with the column's table/keyspace back-references (spec section 4.1). -/
def users_id_eq_42 : ColumnExpr :=
  { _name := "id", _table := "users", _keyspace := "app", operator := "=", value := .vInt 42 }

/-- Concrete column `Orders.status` of a second, unrelated table. -/
def orders_status : Column :=
  { _name := "status", _table := "orders", _keyspace := "shop", rename := none }

/-- Concrete second table `Orders` (keyspace `shop`, table `orders`), used to
exercise cross-table validation. -/
def Orders : Table :=
  { _keyspace := "shop"
    _table_name := "orders"
    columns := [orders_status]
    _materialized_views := [] }

/-- Modelled from the spec: the predicate `Orders.status.eq("x")`. -/
def orders_status_eq_x : ColumnExpr :=
  { _name := "status", _table := "orders", _keyspace := "shop", operator := "=", value := .vStr "x" }

/-- Concrete Select state reached by `Select(Users).where(Users.id.eq(42)).limit(1)`. -/
def select_example : Select :=
  { _select := "*"
    _table := "users"
    _keyspace := "app"
    _where := [users_id_eq_42]
    _allow_filtering := false
    _limit := 1
    _distinct := false
    _group_by := none }

/-- Concrete Update state with one SET assignment and one WHERE predicate. -/
def update_example : Update :=
  { _table := Users
    _keyspace := "app"
    _where := [users_id_eq_42]
    _set_values := [(users_name, Value.vStr "Bob")] }

/-- Concrete Update state with a WHERE predicate but no SET assignment. -/
def update_no_set_example : Update :=
  { _table := Users
    _keyspace := "app"
    _where := [users_id_eq_42]
    _set_values := [] }

/-- Concrete Delete state with one WHERE predicate and the IF EXISTS flag. -/
def delete_example : Delete :=
  { _table := Users
    _keyspace := "app"
    _where := [users_id_eq_42]
    _if_exists := true }

/-- Counting the placeholder character distributes over string concatenation. -/
theorem countQ_append (s t : String) : countQ (s ++ t) = countQ s + countQ t := by
  cases s; cases t
  simp [countQ, String.toList, List.count_append]

/-- No decimal digit character is the placeholder character. -/
theorem digitChar_lt_ne_q (n : Nat) (h : n < 10) : Nat.digitChar n ≠ '?' := by
  interval_cases n <;> decide

/-- The decimal rendering loop of the core library never emits the placeholder
character beyond what was already accumulated. -/
theorem toDigitsCore_no_q (fuel : Nat) : ∀ (n : Nat) (ds : List Char),
    '?' ∉ ds → '?' ∉ Nat.toDigitsCore 10 fuel n ds := by
  induction fuel with
  | zero => intro n ds h; simpa [Nat.toDigitsCore] using h
  | succ f ih =>
    intro n ds h
    simp only [Nat.toDigitsCore]
    have hd : Nat.digitChar (n % 10) ≠ '?' := digitChar_lt_ne_q _ (Nat.mod_lt _ (by decide))
    split
    · intro hmem
      rcases List.mem_cons.mp hmem with h1 | h2
      · exact hd h1.symm
      · exact h h2
    · refine ih _ _ ?_
      intro hmem
      rcases List.mem_cons.mp hmem with h1 | h2
      · exact hd h1.symm
      · exact h h2

/-- The decimal rendering of a natural number contains no placeholder. -/
theorem countQ_natRepr (n : Nat) : countQ (Nat.repr n) = 0 := by
  have h : '?' ∉ Nat.toDigits 10 n := toDigitsCore_no_q _ _ _ (by simp)
  have he : countQ (Nat.repr n) = (Nat.toDigits 10 n).count '?' := rfl
  rw [he]
  exact List.count_eq_zero.mpr h

/-- The decimal rendering of an integer contains no placeholder. -/
theorem countQ_intRepr (i : Int) : countQ (Int.repr i) = 0 := by
  cases i with
  | ofNat m => exact countQ_natRepr m
  | negSucc m =>
    show countQ ("-" ++ Nat.repr (m + 1)) = 0
    rw [countQ_append, countQ_natRepr]
    decide

/-- Placeholder count of a separator-join is the sum over the parts when the
separator itself is placeholder-free. -/
theorem countQ_joinSep (sep : String) (hsep : countQ sep = 0) :
    ∀ l : List String, countQ (joinSep sep l) = (l.map countQ).sum := by
  intro l
  induction l with
  | nil => rfl
  | cons x xs ih =>
    cases xs with
    | nil => simp [joinSep]
    | cons y ys =>
      simp only [joinSep, List.map_cons, List.sum_cons] at ih ⊢
      rw [countQ_append, countQ_append, hsep, ih]
      omega

/-- Each rendered WHERE predicate contributes exactly one placeholder when its
column name and operator are placeholder-free. -/
theorem countQ_predicateSql (p : ColumnExpr)
    (h1 : countQ p._name = 0) (h2 : countQ p.operator = 0) :
    countQ (predicateSql p) = 1 := by
  unfold predicateSql
  rw [countQ_append, countQ_append, countQ_append, h1, h2]
  decide

/-- The AND-joined WHERE clause contains one placeholder per predicate. -/
theorem countQ_whereJoin (ws : List ColumnExpr)
    (h : ∀ p ∈ ws, countQ p._name = 0 ∧ countQ p.operator = 0) :
    countQ (joinSep " AND " (ws.map predicateSql)) = ws.length := by
  rw [countQ_joinSep _ (by decide), List.map_map]
  induction ws with
  | nil => rfl
  | cons p ps ih =>
    simp only [List.map_cons, List.sum_cons, List.length_cons, Function.comp_apply]
    rw [ih (fun q hq => h q (List.mem_cons_of_mem _ hq))]
    have := countQ_predicateSql p (h p (List.mem_cons_self _ _)).1 (h p (List.mem_cons_self _ _)).2
    omega

/-- An optional placeholder-free suffix appended in the then-branch does not
change the placeholder count. -/
theorem countQ_ite_append (c : Prop) [Decidable c] (x t : String) (h : countQ t = 0) :
    countQ (if c then x ++ t else x) = countQ x := by
  split
  · rw [countQ_append, h]
    omega
  · rfl

/-- An optional pair of placeholder-free suffixes appended in the else-branch
does not change the placeholder count. -/
theorem countQ_ite_append2 (c : Prop) [Decidable c] (x t1 t2 : String)
    (h1 : countQ t1 = 0) (h2 : countQ t2 = 0) :
    countQ (if c then x else x ++ t1 ++ t2) = countQ x := by
  split
  · rfl
  · rw [countQ_append, countQ_append, h1, h2]
    omega

/-- The shared WHERE stage of the three build_query methods adds exactly one
placeholder per accumulated predicate. -/
theorem countQ_where_stage (ws : List ColumnExpr) (x : String)
    (h : ∀ p ∈ ws, countQ p._name = 0 ∧ countQ p.operator = 0) :
    countQ (if ws.isEmpty then x
        else x ++ " WHERE " ++ joinSep " AND " (ws.map predicateSql))
      = countQ x + ws.length := by
  by_cases hws : ws.isEmpty
  · rw [if_pos hws, List.isEmpty_iff.mp hws]
    rfl
  · rw [if_neg hws, countQ_append, countQ_append, countQ_whereJoin ws h]
    have hwq : countQ " WHERE " = 0 := by decide
    omega

/-- Placeholder count and parameter list of `Select.build_query`: one
placeholder per WHERE predicate, parameters in predicate order. -/
theorem select_build_count (q : Select)
    (hs : countQ q._select = 0) (hk : countQ q._keyspace = 0) (ht : countQ q._table = 0)
    (hw : ∀ p ∈ q._where, countQ p._name = 0 ∧ countQ p.operator = 0)
    (hg : ∀ g, q._group_by = some g → countQ g = 0) :
    countQ (q.build_query).1 = q._where.length
      ∧ (q.build_query).2 = q._where.map ColumnExpr.value := by
  rcases q with ⟨sel, tbl, ks, ws, af, lim, dist, gb⟩
  simp only at hs hk ht hw hg
  unfold Select.build_query
  simp only
  constructor
  · rw [countQ_ite_append _ _ _ (by decide)]
    rw [countQ_ite_append2 _ _ _ _ (by decide) (countQ_intRepr lim)]
    have hbase : countQ ("SELECT " ++ "DISTINCT" ++ " " ++ sel ++ " FROM " ++ ks ++ "." ++ tbl) = 0 := by
      simp only [countQ_append, hs, hk, ht]
      decide
    cases gb with
    | none =>
      rw [countQ_where_stage ws _ hw, hbase]
      omega
    | some g =>
      have hgq : countQ g = 0 := hg g rfl
      rw [countQ_ite_append2 _ _ _ _ (by decide) hgq]
      rw [countQ_where_stage ws _ hw, hbase]
      omega
  · by_cases hws : ws.isEmpty
    · rw [if_pos hws, List.isEmpty_iff.mp hws]
      rfl
    · rw [if_neg hws]

/-- The inlined SET clause of `Update.build_query` contains no placeholder
when its column names and rendered values are placeholder-free. -/
theorem countQ_setJoin (kvs : List (Column × Value))
    (h : ∀ kv ∈ kvs, countQ kv.1._name = 0 ∧ countQ kv.2.render = 0) :
    countQ (joinSep ", " (kvs.map (fun kv => kv.1._name ++ " = " ++ kv.2.render))) = 0 := by
  rw [countQ_joinSep _ (by decide), List.map_map]
  induction kvs with
  | nil => rfl
  | cons kv rest ih =>
    simp only [List.map_cons, List.sum_cons, Function.comp_apply]
    rw [ih (fun x hx => h x (List.mem_cons_of_mem _ hx))]
    have h1 := (h kv (List.mem_cons_self _ _)).1
    have h2 := (h kv (List.mem_cons_self _ _)).2
    rw [countQ_append, countQ_append, h1, h2]
    decide

/-- Placeholder count and parameter list of a successful
`Update.build_query`: one placeholder per WHERE predicate, parameters in
predicate order; SET values are inlined and contribute none. -/
theorem update_build_count (q : Update)
    (hk : countQ q._keyspace = 0) (ht : countQ q._table._table_name = 0)
    (hw : ∀ p ∈ q._where, countQ p._name = 0 ∧ countQ p.operator = 0)
    (hset : ∀ kv ∈ q._set_values, countQ kv.1._name = 0 ∧ countQ kv.2.render = 0) :
    ∀ s ps, q.build_query = .ok (s, ps) →
      countQ s = q._where.length ∧ ps = q._where.map ColumnExpr.value := by
  intro s ps hok
  rcases q with ⟨tblc, ks, ws, kvs⟩
  simp only at hk ht hw hset
  unfold Update.build_query at hok
  by_cases hkvs : kvs.isEmpty
  · rw [if_pos hkvs] at hok
    exact absurd hok (by simp)
  · rw [if_neg hkvs] at hok
    simp only [Except.ok.injEq, Prod.mk.injEq] at hok
    obtain ⟨hs', hp'⟩ := hok
    constructor
    · rw [← hs']
      have hbase : countQ ("UPDATE " ++ ks ++ "." ++ tblc._table_name ++ " SET "
          ++ joinSep ", " (kvs.map (fun kv => kv.1._name ++ " = " ++ kv.2.render))) = 0 := by
        simp only [countQ_append, hk, ht, countQ_setJoin kvs hset]
        decide
      rw [countQ_where_stage ws _ hw, hbase]
      exact Nat.zero_add ws.length
    · rw [← hp']
      by_cases hws : ws.isEmpty
      · rw [if_pos hws, List.isEmpty_iff.mp hws]
        rfl
      · rw [if_neg hws]

/-- Placeholder count and parameter list of `Delete.build_query`: one
placeholder per WHERE predicate, parameters in predicate order. -/
theorem delete_build_count (q : Delete)
    (hk : countQ q._keyspace = 0) (ht : countQ q._table._table_name = 0)
    (hw : ∀ p ∈ q._where, countQ p._name = 0 ∧ countQ p.operator = 0) :
    countQ (q.build_query).1 = q._where.length
      ∧ (q.build_query).2 = q._where.map ColumnExpr.value := by
  rcases q with ⟨tblc, ks, ws, ife⟩
  simp only at hk ht hw
  unfold Delete.build_query
  simp only
  constructor
  · rw [countQ_ite_append _ _ _ (by decide)]
    have hbase : countQ ("DELETE FROM " ++ ks ++ "." ++ tblc._table_name) = 0 := by
      simp only [countQ_append, hk, ht]
      decide
    rw [countQ_where_stage ws _ hw, hbase]
    omega
  · by_cases hws : ws.isEmpty
    · rw [if_pos hws, List.isEmpty_iff.mp hws]
      rfl
    · rw [if_neg hws]

/-- A fold of `set_environment` calls marks the state modified exactly when at
least one call happened and leaves the last value set. -/
theorem apply_sets_spec (ops : List String) : ∀ s : ApplicationEnvironment,
    ops.foldl ApplicationEnvironment.set_environment s
      = { modified := s.modified || !ops.isEmpty, env := ops.getLastD s.env } := by
  induction ops with
  | nil => intro s; cases s; simp
  | cons a l ih =>
    intro s
    simp only [List.foldl_cons]
    rw [ih]
    simp only [ApplicationEnvironment.set_environment, Bool.true_or, List.isEmpty_cons,
      Bool.not_false, Bool.or_true, List.getLastD_cons]

/-- Claim C1: for every Select, Update, or Delete query state holding `n`
accumulated WHERE predicates (with placeholder-free identifiers, projection,
operators and inlined SET renderings, and — for Update — conditioned on
`build_query` returning a statement at all), the built statement contains
exactly `n` placeholder characters and the parameter list is exactly the list
of the predicates' bound values in the order the predicates were added. -/
theorem C1_placeholders_match_parameters :
    (∀ q : Select,
      countQ q._select = 0 → countQ q._keyspace = 0 → countQ q._table = 0 →
      (∀ p ∈ q._where, countQ p._name = 0 ∧ countQ p.operator = 0) →
      (∀ g, q._group_by = some g → countQ g = 0) →
      countQ (q.build_query).1 = q._where.length
        ∧ (q.build_query).2 = q._where.map ColumnExpr.value)
  ∧ (∀ q : Update,
      countQ q._keyspace = 0 → countQ q._table._table_name = 0 →
      (∀ p ∈ q._where, countQ p._name = 0 ∧ countQ p.operator = 0) →
      (∀ kv ∈ q._set_values, countQ kv.1._name = 0 ∧ countQ kv.2.render = 0) →
      ∀ s ps, q.build_query = .ok (s, ps) →
        countQ s = q._where.length ∧ ps = q._where.map ColumnExpr.value)
  ∧ (∀ q : Delete,
      countQ q._keyspace = 0 → countQ q._table._table_name = 0 →
      (∀ p ∈ q._where, countQ p._name = 0 ∧ countQ p.operator = 0) →
      countQ (q.build_query).1 = q._where.length
        ∧ (q.build_query).2 = q._where.map ColumnExpr.value) :=
  ⟨select_build_count, update_build_count, delete_build_count⟩

/-- Witness for claim C1 at concrete one-predicate Select, Update and Delete
states over the Users table. -/
theorem C1_witness :
    (countQ (select_example.build_query).1 = [users_id_eq_42].length
      ∧ (select_example.build_query).2 = [users_id_eq_42].map ColumnExpr.value)
  ∧ (countQ "UPDATE app.users SET name = Bob WHERE id = ?" = [users_id_eq_42].length
      ∧ [Value.vInt 42] = [users_id_eq_42].map ColumnExpr.value)
  ∧ (countQ (delete_example.build_query).1 = [users_id_eq_42].length
      ∧ (delete_example.build_query).2 = [users_id_eq_42].map ColumnExpr.value) := by
  refine ⟨?_, ?_, ?_⟩
  · exact C1_placeholders_match_parameters.1 select_example
      (by decide) (by decide) (by decide) (by decide)
      (fun g h => Option.noConfusion h)
  · exact C1_placeholders_match_parameters.2.1 update_example
      (by decide) (by decide) (by decide) (by decide)
      "UPDATE app.users SET name = Bob WHERE id = ?" [Value.vInt 42] rfl
  · exact C1_placeholders_match_parameters.2.2 delete_example
      (by decide) (by decide) (by decide)

/-- Claim C2: `build_query` on Select, Update and Delete is pure and
idempotent — in the state-passing reading, the state component it returns is
the input state unchanged, and a second call on that state yields the
identical result. -/
theorem C2_build_query_pure :
    (∀ q : Select, q.build_queryM.2 = q
        ∧ (q.build_queryM.2).build_queryM.1 = q.build_queryM.1)
  ∧ (∀ q : Update, q.build_queryM.2 = q
        ∧ (q.build_queryM.2).build_queryM.1 = q.build_queryM.1)
  ∧ (∀ q : Delete, q.build_queryM.2 = q
        ∧ (q.build_queryM.2).build_queryM.1 = q.build_queryM.1) :=
  ⟨fun _ => ⟨rfl, rfl⟩, fun _ => ⟨rfl, rfl⟩, fun _ => ⟨rfl, rfl⟩⟩

/-- Witness for claim C2 at the concrete Select, Update and Delete example
states. -/
theorem C2_witness :
    (select_example.build_queryM.2 = select_example
      ∧ (select_example.build_queryM.2).build_queryM.1 = select_example.build_queryM.1)
  ∧ (update_example.build_queryM.2 = update_example
      ∧ (update_example.build_queryM.2).build_queryM.1 = update_example.build_queryM.1)
  ∧ (delete_example.build_queryM.2 = delete_example
      ∧ (delete_example.build_queryM.2).build_queryM.1 = delete_example.build_queryM.1) :=
  ⟨C2_build_query_pure.1 select_example, C2_build_query_pure.2.1 update_example,
    C2_build_query_pure.2.2 delete_example⟩

/-- Claim C3 (divergence): `Select(Users).where(Users.id.eq(42)).limit(1)`
builds to `SELECT DISTINCT * FROM app.users WHERE id = ? LIMIT 1` with
parameters `[42]` — the DISTINCT keyword appears even though `distinct()` was
never called, because `build_query` tests the always-truthy bound method
`self.distinct` instead of the `_distinct` flag; the claimed statement without
DISTINCT is a different string. -/
theorem C3_select_example_renders_distinct :
    Except.map Select.build_query
        (((Select.init_table Users).where' [users_id_eq_42]).bind (fun q => q.limit 1))
      = .ok ("SELECT DISTINCT * FROM app.users WHERE id = ? LIMIT 1", [Value.vInt 42])
  ∧ "SELECT DISTINCT * FROM app.users WHERE id = ? LIMIT 1"
      ≠ "SELECT  * FROM app.users WHERE id = ? LIMIT 1" := by
  constructor
  · rfl
  · decide

/-- Claim C4 (divergence): `Delete(Users).where(Users.id.eq(42))` does not
accept the predicate on Users's own id column — the validity check compares
the predicate's table-name string against the stored Table class object,
which is always False in Python, so the call raises the same-table assertion
instead of extending the query. -/
theorem C4_delete_where_rejects_own_column :
    (Delete.init Users).where' [users_id_eq_42]
        = .error (.assertionError "Columns do not originate from the same table")
  ∧ eqStrTableClass users_id_eq_42._table (Delete.init Users)._table = false :=
  ⟨rfl, rfl⟩

/-- Counterexample to claim C5: `Update.set` on a query fixed to table
`app.users` accepts the column `shop.orders.status` of a different table and
keyspace without any error, recording the assignment — no ValidationError is
raised. -/
theorem C5_counterexample_update_set_foreign :
    (Update.init Users).set orders_status (Value.vStr "x")
      = .ok { _table := Users, _keyspace := "app", _where := [],
              _set_values := [(orders_status, Value.vStr "x")] } := rfl

/-- Claim C5 as amended: cross-table references fail with the same-table
ValidationError for `where` predicates of all three filtered statement kinds
and for `group_by` columns (for Update and Delete every non-empty `where`
call fails, hence in particular the cross-table ones), but `Update.set`
performs no validation at all and records an assignment to a column of any
table. -/
theorem C5_amended_cross_table_validation :
    (∀ (q : Select) (ps : List ColumnExpr), ps ≠ [] →
      (∃ p ∈ ps, ¬(p._table = q._table ∧ p._keyspace = q._keyspace)) →
      q.where' ps = .error (.assertionError "Columns do not originate from the same table"))
  ∧ (∀ (q : Select) (cs : List Column), cs ≠ [] →
      (∃ c ∈ cs, ¬(c._table = q._table ∧ c._keyspace = q._keyspace)) →
      q.group_by cs = .error (.assertionError "Columns do not originate from the same table"))
  ∧ (∀ (q : Update) (ps : List ColumnExpr), ps ≠ [] →
      q.where' ps = .error (.assertionError "Columns do not originate from the same table"))
  ∧ (∀ (q : Delete) (ps : List ColumnExpr), ps ≠ [] →
      q.where' ps = .error (.assertionError "Columns do not originate from the same table"))
  ∧ (∀ (q : Update) (c : Column) (v : Value),
      q.set c v = .ok { q with _set_values := assocSet q._set_values c v }) := by
  refine ⟨?_, ?_, ?_, ?_, ?_⟩
  · intro q ps hne hex
    unfold Select.where'
    rw [if_neg (fun h => hne (List.isEmpty_iff.mp h))]
    have hall : ¬(ps.all (fun p => p._table == q._table && p._keyspace == q._keyspace) = true) := by
      intro hA
      obtain ⟨p, hp, hn⟩ := hex
      have := List.all_eq_true.mp hA p hp
      simp only [Bool.and_eq_true, beq_iff_eq] at this
      exact hn this
    rw [if_neg hall]
  · intro q cs hne hex
    unfold Select.group_by
    rw [if_neg (fun h => hne (List.isEmpty_iff.mp h))]
    have hall : ¬(cs.all (fun c => c._table == q._table && c._keyspace == q._keyspace) = true) := by
      intro hA
      obtain ⟨c, hc, hn⟩ := hex
      have := List.all_eq_true.mp hA c hc
      simp only [Bool.and_eq_true, beq_iff_eq] at this
      exact hn this
    rw [if_neg hall]
  · intro q ps hne
    unfold Update.where'
    rw [if_neg (fun h => hne (List.isEmpty_iff.mp h))]
    have hall : ¬(ps.all (fun p =>
        eqStrTableClass p._table q._table && p._keyspace == q._keyspace) = true) := by
      intro hA
      cases ps with
      | nil => exact hne rfl
      | cons p rest =>
        have := List.all_eq_true.mp hA p (List.mem_cons_self _ _)
        simp [eqStrTableClass] at this
    rw [if_neg hall]
  · intro q ps hne
    unfold Delete.where'
    rw [if_neg (fun h => hne (List.isEmpty_iff.mp h))]
    have hall : ¬(ps.all (fun p =>
        eqStrTableClass p._table q._table && p._keyspace == q._keyspace) = true) := by
      intro hA
      cases ps with
      | nil => exact hne rfl
      | cons p rest =>
        have := List.all_eq_true.mp hA p (List.mem_cons_self _ _)
        simp [eqStrTableClass] at this
    rw [if_neg hall]
  · intro q c v
    rfl

/-- Witness for the amended claim C5 at concrete queries on `app.users`
referencing the foreign column `shop.orders.status`. -/
theorem C5_amended_witness :
    (Select.init_table Users).where' [orders_status_eq_x]
        = .error (.assertionError "Columns do not originate from the same table")
  ∧ (Select.init_table Users).group_by [orders_status]
        = .error (.assertionError "Columns do not originate from the same table")
  ∧ (Update.init Users).where' [orders_status_eq_x]
        = .error (.assertionError "Columns do not originate from the same table")
  ∧ (Delete.init Users).where' [orders_status_eq_x]
        = .error (.assertionError "Columns do not originate from the same table")
  ∧ (Update.init Users).set orders_status (Value.vStr "x")
        = .ok { Update.init Users with
            _set_values := assocSet (Update.init Users)._set_values orders_status (Value.vStr "x") } := by
  refine ⟨?_, ?_, ?_, ?_, ?_⟩
  · exact C5_amended_cross_table_validation.1 _ _ (by decide)
      ⟨orders_status_eq_x, by decide, by decide⟩
  · exact C5_amended_cross_table_validation.2.1 _ _ (by decide)
      ⟨orders_status, by decide, by decide⟩
  · exact C5_amended_cross_table_validation.2.2.1 _ _ (by decide)
  · exact C5_amended_cross_table_validation.2.2.2.1 _ _ (by decide)
  · exact C5_amended_cross_table_validation.2.2.2.2 _ _ _

/-- Claim C6: `get_view` on a key present in the materialized-view map returns
a descriptor equal to the source except that the table name is the source name
suffixed with an underscore and the key (keyspace, columns and view map
unchanged; the source is untouched, the source code clones via deepcopy); on
an absent key it fails with the ValueError message naming the table name and
the key. -/
theorem C6_get_view_clone_or_not_found (t : Table) (k : String) :
    ((t._materialized_views.map Prod.fst).contains k = true →
      t.get_view k = .ok { t with _table_name := t._table_name ++ "_" ++ k })
  ∧ ((t._materialized_views.map Prod.fst).contains k = false →
      t.get_view k = .error (.valueError
        ("Table " ++ t._table_name ++ " does not have a view associated with " ++ k ++ "."))) := by
  constructor
  · intro h
    unfold Table.get_view
    rw [h]
    rfl
  · intro h
    unfold Table.get_view
    rw [h]
    rfl

/-- Witness for claim C6 on the Users table: the present key `by_email` and
the absent key `by_phone`. -/
theorem C6_witness :
    Users.get_view "by_email"
        = .ok { Users with _table_name := Users._table_name ++ "_" ++ "by_email" }
  ∧ Users.get_view "by_phone"
        = .error (.valueError
            ("Table " ++ Users._table_name ++ " does not have a view associated with "
              ++ "by_phone" ++ ".")) :=
  ⟨(C6_get_view_clone_or_not_found Users "by_email").1 (by decide),
   (C6_get_view_clone_or_not_found Users "by_phone").2 (by decide)⟩

/-- Claim C7: on an Update with no accumulated SET assignment, `build_query`
fails with the no-SET ValueError whatever the WHERE predicates, and `execute`
propagates that error without any driver call being made (the result is the
same error for every driver function). -/
theorem C7_update_without_set_fails (q : Update) (h : q._set_values = []) :
    q.build_query = .error (.valueError "No SET in update query!")
  ∧ ∀ (α : Type) (driver : String → List Value → α),
      q.execute driver = .error (.valueError "No SET in update query!") := by
  have hb : q.build_query = .error (.valueError "No SET in update query!") := by
    unfold Update.build_query
    rw [if_pos (by rw [h]; rfl)]
  refine ⟨hb, fun α driver => ?_⟩
  unfold Update.execute
  rw [hb]

/-- Witness for claim C7 at a concrete Update on Users with one WHERE
predicate and no SET assignment. -/
theorem C7_witness :
    update_no_set_example.build_query = .error (.valueError "No SET in update query!")
  ∧ update_no_set_example.execute (fun _ _ => (0 : Nat))
      = .error (.valueError "No SET in update query!") := by
  have h := C7_update_without_set_fails update_no_set_example rfl
  exact ⟨h.1, h.2 Nat (fun _ _ => 0)⟩

/-- Claim C8 (divergence): constructing a Select from a non-empty list of
column or aggregate references never succeeds — the constructor's validity
assert reads the never-assigned attribute `_keyspace` and raises
AttributeError before the projection is built. -/
theorem C8_select_from_columns_raises (cols : List ColumnRef) (h : cols ≠ []) :
    Select.init_columns cols = .error (.attributeError "_keyspace") := by
  cases cols with
  | nil => exact absurd rfl h
  | cons c rest => rfl

/-- Witness for claim C8 at the concrete single-column list `[Users.id]`. -/
theorem C8_witness :
    ([ColumnRef.col users_id] : List ColumnRef) ≠ []
  ∧ Select.init_columns [ColumnRef.col users_id] = .error (.attributeError "_keyspace") :=
  ⟨by decide, C8_select_from_columns_raises [ColumnRef.col users_id] (by decide)⟩

/-- Claim C9 (divergence): `Insert` defines no `build_query`, so instantiating
it raises TypeError (abstract method not overridden) and the inherited
abstract `build_query` body raises NotImplementedError; no INSERT statement is
ever produced. -/
theorem C9_insert_build_query_not_implemented :
    Insert.init Users
        = .error (.typeError "Insert is abstract: build_query is not implemented")
  ∧ Insert.build_query
        { _table := Users, _keyspace := "app",
          _values := [{ fields := [("id", Value.vInt 1)] }] }
        = .error .notImplementedError :=
  ⟨rfl, rfl⟩

/-- Counterexample to claim C10: after setting the environment to `staging`
and then to `prod`, a read returns `prod` — the first-set value `staging` is
not returned, so the first set call does not win. -/
theorem C10_counterexample_first_set_does_not_win :
    ((ApplicationEnvironment.init.set_environment "staging").set_environment
        "prod").get_environment = ("prod", [])
  ∧ "prod" ≠ "staging" :=
  ⟨rfl, by decide⟩

/-- Claim C10 as amended: every `set_environment` call overwrites the value,
so reads return the most recently set value (last set wins); if the
environment was never set, reads return the default `dev` and emit the
default-environment warning on each read, and no warning otherwise. -/
theorem C10_amended_last_set_wins (ops : List String) :
    ((ApplicationEnvironment.apply_sets ops).get_environment).1 = ops.getLastD "dev"
  ∧ ((ApplicationEnvironment.apply_sets ops).get_environment).2
      = (if ops.isEmpty
         then ["Using the default environment : dev, as the application env has not been set"]
         else []) := by
  unfold ApplicationEnvironment.apply_sets
  rw [apply_sets_spec]
  constructor
  · rfl
  · by_cases hops : ops.isEmpty
    · have h0 : ops = [] := List.isEmpty_iff.mp hops
      subst h0
      rfl
    · rw [Bool.not_eq_true] at hops
      rw [hops]
      rfl

/-- Witness for the amended claim C10 at the concrete set sequence
`staging` then `prod`. -/
theorem C10_amended_witness :
    ((ApplicationEnvironment.apply_sets ["staging", "prod"]).get_environment).1
        = ["staging", "prod"].getLastD "dev"
  ∧ ((ApplicationEnvironment.apply_sets ["staging", "prod"]).get_environment).2
      = (if (["staging", "prod"] : List String).isEmpty
         then ["Using the default environment : dev, as the application env has not been set"]
         else []) :=
  C10_amended_last_set_wins ["staging", "prod"]

end ScyllaOrm
